import Mathlib

/-
  Verification development for the bates-advisor-agent repository.

  Shallow embedding of the multi-agent query-orchestration core:
    - src/src/agents/router_agent.py      (RouterAgent, routing cache)
    - src/src/memory/session_manager.py   (StudentContext, ConversationHistory, SessionManager)
    - src/src/orchestrator.py             (MultiAgentOrchestrator)
    - src/src/agents/base_rag_agent.py    (BaseRAGAgent.retrieve_context and the RAG pipeline)
    - src/src/agents/{program,admissions,financial}_agent.py

  External collaborators (Retrieval Service, Generation Service, the two
  structured-search tools and the course-code regular expression) are modelled
  as explicit oracle inputs.  Wall-clock reads (datetime.now / time.time) are
  modelled by passing the current time as an explicit Nat argument.  Python
  strings are modelled by Lean String, with the Python primitives
  (str.lower, str.split, str.strip, "in", slicing, str.split(sep)) re-implemented
  structurally below so that everything evaluates inside the kernel.
-/

namespace BatesAdvisor

/-! ## Python string primitives, modelled structurally -/

/-- Python `s.lower()` (ASCII as used by the repository). -/
def lowerStr (s : String) : String := String.mk (s.toList.map Char.toLower)

/-- Worker for `pyWords`: split on whitespace runs, dropping empty pieces. -/
def wordsAux : List Char → List Char → List (List Char)
  | [], cur => if cur.isEmpty then [] else [cur.reverse]
  | c :: cs, cur =>
    if c.isWhitespace then
      if cur.isEmpty then wordsAux cs [] else cur.reverse :: wordsAux cs []
    else wordsAux cs (c :: cur)

/-- Python `s.split()` with no separator: whitespace-delimited words, no empties. -/
def pyWords (s : String) : List String := (wordsAux s.toList []).map String.mk

/-- Substring occurrence test on character lists. -/
def isSubstrList (needle : List Char) : List Char → Bool
  | [] => needle.isEmpty
  | c :: cs => needle.isPrefixOf (c :: cs) || isSubstrList needle cs

/-- Python `needle in haystack` for strings. -/
def containsStr (haystack needle : String) : Bool :=
  isSubstrList needle.toList haystack.toList

/-- Worker for `pySplitOn`: fuel-indexed left-to-right split on a separator. -/
def splitOnFuel (sep : List Char) : Nat → List Char → List Char → List (List Char)
  | _, [], cur => [cur.reverse]
  | 0, l, cur => [cur.reverse ++ l]
  | fuel+1, c :: cs, cur =>
    if sep.isPrefixOf (c :: cs) then
      cur.reverse :: splitOnFuel sep fuel (List.drop (sep.length - 1) cs) []
    else splitOnFuel sep fuel cs (c :: cur)

/-- Python `s.split(sep)` for a non-empty separator. -/
def pySplitOn (s sep : String) : List String :=
  (splitOnFuel sep.toList s.toList.length s.toList []).map String.mk

/-- Python `s.strip()` (whitespace on both ends). -/
def trimStr (s : String) : String :=
  String.mk (((s.toList.dropWhile Char.isWhitespace).reverse.dropWhile Char.isWhitespace).reverse)

/-- Python `s.strip('[]')`. -/
def stripBrackets (s : String) : String :=
  let p : Char → Bool := fun c => c == '[' || c == ']'
  String.mk (((s.toList.dropWhile p).reverse.dropWhile p).reverse)

/-- Python `s[:n]` for `n ≥ 0`. -/
def strTake (n : Nat) (s : String) : String := String.mk (s.toList.take n)

/-- Python `s.startswith(pre)`. -/
def startsWithStr (s pre : String) : Bool := pre.toList.isPrefixOf s.toList

/-- The last `k` elements of a list. -/
def takeLast (k : Nat) (l : List α) : List α := (l.reverse.take k).reverse

/-- Python `l[-k:]` on lists: the whole list when `k = 0`, else the last `k` elements. -/
def pySliceLast (l : List α) (k : Nat) : List α :=
  if k = 0 then l else takeLast k l

/-- Python `str.title()` (character classes restricted to what the repository feeds it). -/
def titleAux : Bool → List Char → List Char
  | _, [] => []
  | prevAlpha, c :: cs =>
    (if c.isAlpha then (if prevAlpha then c.toLower else c.toUpper) else c) :: titleAux c.isAlpha cs

/-- Python `s.title()`. -/
def titleStr (s : String) : String := String.mk (titleAux false s.toList)

/-! ## Router embedding (src/src/agents/router_agent.py) -/

/-- A failure of the Generation Service (`model.generate_content` raising). -/
inductive GenError where
  | genFailure
deriving DecidableEq, Repr

/-- `_normalize_query`: `' '.join(query.lower().strip().split())`. -/
def normalize_query (query : String) : String :=
  String.intercalate " " (pyWords (lowerStr query))

/-- `RouterAgent.agent_registry`: agent id paired with its expertise keyword list,
in the insertion order of the Python dict. -/
def agent_registry : List (String × List String) :=
  [("program",
    ["courses", "classes", "curriculum", "degree", "certificate",
     "program requirements", "prerequisites", "course descriptions",
     "credits", "course codes", "training", "pathway"]),
   ("admissions",
    ["admission", "apply", "application", "enrollment", "enroll",
     "requirements", "deadline", "placement test", "acceptance",
     "registration", "qualify", "eligibility"]),
   ("financial",
    ["cost", "tuition", "fees", "price", "financial aid",
     "scholarship", "grant", "loan", "FAFSA", "payment",
     "afford", "expensive", "funding", "money"]),
   ("general",
    ["help", "hello", "hi", "hey", "thanks", "thank you",
     "who are you", "what can you do", "assist", "support"])]

/-- The `selected` list computed inside `_keyword_based_routing`: agent ids whose
expertise keywords occur as substrings of the lowercased query. -/
def keyword_matches (query : String) : List String :=
  (agent_registry.filter
    (fun info => info.2.any (fun kw => containsStr (lowerStr query) kw))).map Prod.fst

/-- `RouterAgent._keyword_based_routing`: keyword fallback over the registry,
defaulting to `program` when nothing matches. -/
def keyword_based_routing (query : String) : List String :=
  if (keyword_matches query).isEmpty then ["program"] else keyword_matches query

/-- Result of `RouterAgent.analyze_intent` (the dict with `agents` and `reasoning`). -/
structure IntentResult where
  agents : List String
  reasoning : String
deriving DecidableEq, Repr

/-- One iteration of the line loop in `analyze_intent`: later `AGENTS:` /
`REASONING:` lines overwrite earlier ones. -/
def parse_line (acc : List String × String) (line : String) : List String × String :=
  if startsWithStr line "AGENTS:" then
    let agents_str := stripBrackets (trimStr ((pySplitOn line "AGENTS:").getD 1 ""))
    ((pySplitOn agents_str ",").map trimStr, acc.2)
  else if startsWithStr line "REASONING:" then
    (acc.1, trimStr ((pySplitOn line "REASONING:").getD 1 ""))
  else acc

/-- The parsing section of `analyze_intent` applied to the Generation Service output:
`(selected_agents, reasoning)` after scanning every line. -/
def parse_classification (response_text : String) : List String × String :=
  (pySplitOn response_text "\n").foldl parse_line ([], "")

/-- `RouterAgent.analyze_intent`: the Generation Service call is the `llm` argument
(`Except.error` models `generate_content` raising, which the code does not catch);
an unparseable reply (no `AGENTS:` line) falls back to keyword routing. -/
def analyze_intent (query : String) (llm : Except GenError String) :
    Except GenError IntentResult :=
  match llm with
  | Except.error e => Except.error e
  | Except.ok response_text =>
    if (parse_classification response_text).1.isEmpty then
      Except.ok { agents := keyword_based_routing query,
                  reasoning := "Fallback keyword-based routing" }
    else
      Except.ok { agents := (parse_classification response_text).1,
                  reasoning := (parse_classification response_text).2 }

/-- `_routing_cache`: normalized query keyed to its stored result, oldest entry first
(Python dicts preserve insertion order; keys are inserted only on a miss). -/
abbrev RoutingCache := List (String × IntentResult)

/-- The dict returned by `RouterAgent.route`. -/
structure RouteOutput where
  query : String
  selected_agents : List String
  reasoning : String
deriving DecidableEq, Repr

/-- Cache insertion in `route`: append, then drop the oldest entry when the size
exceeds 100 (`next(iter(_routing_cache))` is the first-inserted key). -/
def cache_put (cache : RoutingCache) (key : String) (r : IntentResult) : RoutingCache :=
  if (cache ++ [(key, r)]).length > 100 then (cache ++ [(key, r)]).drop 1
  else cache ++ [(key, r)]

/-- `RouterAgent.route`: cache lookup by normalized query, annotating hits with
`" (cached)"`; on a miss, classify, store, and bound the cache. -/
def route (cache : RoutingCache) (query : String) (llm : Except GenError String) :
    Except GenError (RouteOutput × RoutingCache) :=
  match List.lookup (normalize_query query) cache with
  | some cached =>
    Except.ok ({ query := query, selected_agents := cached.agents,
                 reasoning := cached.reasoning ++ " (cached)" }, cache)
  | none =>
    match analyze_intent query llm with
    | Except.error e => Except.error e
    | Except.ok result =>
      Except.ok ({ query := query, selected_agents := result.agents,
                   reasoning := result.reasoning },
                 cache_put cache (normalize_query query) result)

/-! ## Session manager embedding (src/src/memory/session_manager.py) -/

/-- A Python exception escaping one of the embedded operations. -/
inductive PyError where
  | valueError (msg : String)
  | generationFailure
deriving DecidableEq, Repr

/-- One entry of `ConversationHistory.messages`; `timestamp` is the
`datetime.now().isoformat()` wall-clock read, modelled as a Nat. -/
structure Message where
  role : String
  content : String
  timestamp : Nat
deriving DecidableEq, Repr

/-- `ConversationHistory`: message list plus the `max_history` bound
(constructor default 10). -/
structure ConversationHistory where
  messages : List Message
  max_history : Nat
deriving DecidableEq, Repr

/-- `ConversationHistory.add_message`: append, then
`self.messages = self.messages[-self.max_history * 2:]` when the length
exceeds `max_history * 2` (note Python `l[-0:]` is the whole list). -/
def ConversationHistory.add_message (h : ConversationHistory)
    (role content : String) (now : Nat) : ConversationHistory :=
  if (h.messages ++ [Message.mk role content now]).length > h.max_history * 2 then
    { h with messages :=
        pySliceLast (h.messages ++ [Message.mk role content now]) (h.max_history * 2) }
  else
    { h with messages := h.messages ++ [Message.mk role content now] }

/-- `ConversationHistory.get_all_messages`. -/
def ConversationHistory.get_all_messages (h : ConversationHistory) : List Message :=
  h.messages

/-- `ConversationHistory.get_recent_context`. -/
def ConversationHistory.get_recent_context (h : ConversationHistory) (n : Nat) : String :=
  let recent := if h.messages.length ≥ n * 2 then pySliceLast h.messages (n * 2) else h.messages
  let context_lines := recent.map (fun msg =>
    (if msg.role == "user" then "Student" else "Advisor") ++ ": " ++ strTake 100 msg.content ++ "...")
  if context_lines.isEmpty then "No prior conversation"
  else String.intercalate "\n" context_lines

/-- `StudentContext` (the dataclass; `to_dict`/construction round-trip is the
identity on this record). -/
structure StudentContext where
  major : Option String := none
  year : Option String := none
  interests : List String := []
  goals : List String := []
  previous_questions : List String := []
deriving DecidableEq, Repr

/-- Python truthiness of `Optional[str]` (`None` and `""` are falsy). -/
def truthyOpt : Option String → Bool
  | none => false
  | some s => !s.isEmpty

/-- `StudentContext.to_context_string`. -/
def StudentContext.to_context_string (c : StudentContext) : String :=
  let parts : List String := []
  let parts := if truthyOpt c.major then parts ++ ["Major: " ++ c.major.getD ""] else parts
  let parts := if truthyOpt c.year then parts ++ ["Year: " ++ c.year.getD ""] else parts
  let parts := if !c.interests.isEmpty then
    parts ++ ["Interests: " ++ String.intercalate ", " c.interests] else parts
  let parts := if !c.goals.isEmpty then
    parts ++ ["Goals: " ++ String.intercalate ", " c.goals] else parts
  if parts.isEmpty then "No prior context" else String.intercalate " | " parts

/-- Worker for `dedupKeepFirst`. -/
def dedupKeepFirstAux : List String → List String → List String
  | [], _ => []
  | x :: xs, seen =>
    if x ∈ seen then dedupKeepFirstAux xs seen
    else x :: dedupKeepFirstAux xs (x :: seen)

/-- Model of Python `list(set(l))`: CPython iterates the set in an unspecified
hash order; the embedding fixes first-occurrence order (the claims under proof
do not depend on the order chosen). -/
def dedupKeepFirst (l : List String) : List String := dedupKeepFirstAux l []

/-- One session record held in `SessionManager.sessions`. -/
structure Session where
  session_id : String
  created_at : Nat
  student_context : StudentContext
  conversation_history : ConversationHistory
  metadata : List (String × String)
deriving DecidableEq, Repr

/-- Association-list model of a Python dict keyed by strings
(insertion-ordered, unique keys). -/
def alistLookup {β : Type} (l : List (String × β)) (k : String) : Option β :=
  (l.find? (fun p => p.1 == k)).map Prod.snd

/-- Dict assignment to an existing key: replace in place. -/
def alistUpdate {β : Type} (l : List (String × β)) (k : String) (v : β) :
    List (String × β) :=
  l.map (fun p => if p.1 == k then (p.1, v) else p)

/-- Dict assignment `d[k] = v`: replace when present, else append. -/
def alistInsert {β : Type} (l : List (String × β)) (k : String) (v : β) :
    List (String × β) :=
  if (l.find? (fun p => p.1 == k)).isSome then alistUpdate l k v else l ++ [(k, v)]

/-- `SessionManager.sessions`. -/
abbrev SessionManager := List (String × Session)

/-- The serialized on-disk form written by `save_session`
(one JSON document per session). -/
structure SessionData where
  session_id : String
  created_at : Nat
  student_context : StudentContext
  conversation_history : List Message
  metadata : List (String × String)
deriving DecidableEq, Repr

/-- The storage directory: session id to its serialized record. -/
abbrev Disk := List (String × SessionData)

/-- `SessionManager.create_session` (the uuid, when not supplied, is an input). -/
def create_session (m : SessionManager) (sid : String) (now : Nat) :
    SessionManager × String :=
  (alistInsert m sid
    { session_id := sid, created_at := now, student_context := {},
      conversation_history := { messages := [], max_history := 10 },
      metadata := [] }, sid)

/-- `SessionManager.get_session` (`dict.get`: absent id gives `None`). -/
def get_session (m : SessionManager) (sid : String) : Option Session :=
  alistLookup m sid

/-- `SessionManager.update_student_context`: raises `ValueError` on an unknown
id; truthy fields overwrite `major`/`year` and extend-then-dedup the
`interests`/`goals` lists. -/
def update_student_context (m : SessionManager) (sid : String)
    (major year : Option String) (interests goals : Option (List String)) :
    Except PyError SessionManager :=
  match get_session m sid with
  | none => Except.error (PyError.valueError ("Session " ++ sid ++ " not found"))
  | some s =>
    let c := s.student_context
    let c := if truthyOpt major then { c with major := major } else c
    let c := if truthyOpt year then { c with year := year } else c
    let c := match interests with
      | some v => if !v.isEmpty then { c with interests := dedupKeepFirst (c.interests ++ v) } else c
      | none => c
    let c := match goals with
      | some v => if !v.isEmpty then { c with goals := dedupKeepFirst (c.goals ++ v) } else c
      | none => c
    Except.ok (alistUpdate m sid { s with student_context := c })

/-- The `previous_questions` tracking inside `SessionManager.add_message`
(append, keep the last 20). -/
def track_question (c : StudentContext) (content : String) : StudentContext :=
  if (c.previous_questions ++ [content]).length > 20 then
    { c with previous_questions := pySliceLast (c.previous_questions ++ [content]) 20 }
  else
    { c with previous_questions := c.previous_questions ++ [content] }

/-- `SessionManager.add_message`: raises `ValueError` on an unknown id;
appends to the history and tracks user questions. -/
def SessionManager.add_message (m : SessionManager) (sid role content : String)
    (now : Nat) : Except PyError SessionManager :=
  match get_session m sid with
  | none => Except.error (PyError.valueError ("Session " ++ sid ++ " not found"))
  | some s =>
    let s := { s with conversation_history := s.conversation_history.add_message role content now }
    let s := if role == "user" then
        { s with student_context := track_question s.student_context content }
      else s
    Except.ok (alistUpdate m sid s)

/-- `SessionManager.get_context_for_agent`: formatted `(student_context,
conversation_context)` strings, defaults for an unknown id. -/
def get_context_for_agent (m : SessionManager) (sid : String) : String × String :=
  match get_session m sid with
  | none => ("No prior context", "No prior conversation")
  | some s => (s.student_context.to_context_string,
               s.conversation_history.get_recent_context 5)

/-- The program keywords scanned by `extract_context_from_query`. -/
def context_programs : List String :=
  ["nursing", "carpentry", "welding", "dental", "healthcare",
   "medical", "construction", "automotive", "culinary"]

/-- The year keywords scanned by `extract_context_from_query`. -/
def context_years : List String :=
  ["freshman", "sophomore", "junior", "senior", "first year", "second year"]

/-- `SessionManager.extract_context_from_query`: keyword scan of the query, then
`update_student_context` only when something was extracted. -/
def extract_context_from_query (m : SessionManager) (sid query : String) :
    Except PyError SessionManager :=
  if ((context_programs.find? (fun p => containsStr (lowerStr query) p)).map titleStr).isSome
      || ((context_years.find? (fun y => containsStr (lowerStr query) y)).map titleStr).isSome then
    update_student_context m sid
      ((context_programs.find? (fun p => containsStr (lowerStr query) p)).map titleStr)
      ((context_years.find? (fun y => containsStr (lowerStr query) y)).map titleStr)
      none none
  else Except.ok m

/-- `SessionManager.save_session`: on an unknown id the code returns silently
(`if not session: return`), never raising — modelled as `Except.ok` with the
disk unchanged.  On a known id, one serialized record is written. -/
def save_session (m : SessionManager) (disk : Disk) (sid : String) :
    Except PyError Disk :=
  match get_session m sid with
  | none => Except.ok disk
  | some s =>
    Except.ok (alistInsert disk sid
      { session_id := sid, created_at := s.created_at,
        student_context := s.student_context,
        conversation_history := s.conversation_history.get_all_messages,
        metadata := s.metadata })

/-- `SessionManager.load_session` at wall-clock time `now`: `False` when the
file is absent; otherwise the record is reconstructed by replaying
`add_message` (which re-stamps every message with the load-time clock) into a
fresh default-capacity history. -/
def load_session (m : SessionManager) (disk : Disk) (sid : String) (now : Nat) :
    SessionManager × Bool :=
  match alistLookup disk sid with
  | none => (m, false)
  | some d =>
    (alistInsert m sid
      { session_id := sid, created_at := d.created_at,
        student_context := d.student_context,
        conversation_history := d.conversation_history.foldl
          (fun h msg => h.add_message msg.role msg.content now)
          { messages := [], max_history := 10 },
        metadata := d.metadata }, true)

/-- `SessionManager.list_sessions`. -/
def list_sessions (disk : Disk) : List String := disk.map Prod.fst

/-! ## RAG pipeline embedding (src/src/agents/base_rag_agent.py and the three
specialist subclasses) -/

/-- One chunk returned by the Retrieval Service (`similarity_search` result with
its page/source metadata; the page identifier is kept opaque as a string). -/
structure Chunk where
  content : String
  page : String
  source : String
deriving DecidableEq, Repr

/-- One entry of an `AgentResult` source list (`{page, preview}`). -/
structure Source where
  page : String
  preview : String
deriving DecidableEq, Repr

/-- The dict returned by a specialist `process_query`. -/
structure AgentResult where
  agent : String
  response : String
  sources : List Source
  tools_used : List String
deriving DecidableEq, Repr

/-- The external collaborators, passed as oracles: the Retrieval Service
(`similarity_search`), the Generation Service (`generate_content`), the two
structured-search tools of the Program agent, and the course-code regular
expression `re.search` of `ProgramAdvisorAgent.process_query` (abstracted to an
oracle because no claim under proof depends on the matched text). -/
structure Oracles where
  retrieve : String → Nat → List Chunk
  generate : String → String
  course_search : String → String
  program_finder : String → String
  course_code_match : String → Option String

/-- `has_multiple_questions` inside `BaseRAGAgent.retrieve_context`:
`'?' in query and query.count('?') > 1`. -/
def has_multiple_questions (query : String) : Bool :=
  containsStr query "?" && decide (query.toList.count '?' > 1)

/-- `has_complex_keywords` inside `BaseRAGAgent.retrieve_context`. -/
def has_complex_keywords (query : String) : Bool :=
  ["compare", "difference", "all", "list", "everything"].any
    (fun kw => containsStr (lowerStr query) kw)

/-- The adaptive chunk-count selection of `BaseRAGAgent.retrieve_context`
(the `k is None` path). -/
def adaptive_k (query : String) : Nat :=
  if decide ((pyWords query).length < 8) && !has_multiple_questions query then 2
  else if has_complex_keywords query || has_multiple_questions query
      || decide ((pyWords query).length > 20) then 5
  else 3

/-- `BaseRAGAgent.retrieve_context`: returns the chunks together with the count
actually requested from the Retrieval Service (the observable for the claims). -/
def retrieve_context (retrieve : String → Nat → List Chunk) (query : String)
    (k : Option Nat) : List Chunk × Nat :=
  match k with
  | none => (retrieve query (adaptive_k query), adaptive_k query)
  | some kk => (retrieve query kk, kk)

/-- `BaseRAGAgent.format_context`. -/
def format_context (context_chunks : List Chunk) : String :=
  if context_chunks.isEmpty then "No relevant context found."
  else String.intercalate "\n"
    ((context_chunks.enumFrom 1).flatMap
      (fun ic => ["[Source " ++ toString ic.1 ++ " - Page " ++ ic.2.page ++ "]",
                  ic.2.content, ""]))

/-- `BaseRAGAgent.generate_response`: composes the prompt and calls the
Generation Service once. -/
def generate_response (generate : String → String) (name role : String)
    (query context student_context conversation_history : String)
    (system_prompt : Option String) : String :=
  let sp := match system_prompt with
    | some s => s
    | none =>
      "You are " ++ name ++ ", a specialized " ++ role ++
      " advisor for Bates Technical College.\n\nYour expertise: " ++ role ++
      "\n\nUse the context provided to answer student questions accurately and helpfully."
  let prompt_parts := [sp]
  let prompt_parts := if !student_context.isEmpty then
      prompt_parts ++ ["\nStudent Context:\n" ++ student_context] else prompt_parts
  let prompt_parts := if !conversation_history.isEmpty then
      prompt_parts ++ ["\nRecent Conversation:\n" ++ conversation_history] else prompt_parts
  let prompt_parts := prompt_parts ++
    ["\nRelevant Information from Bates Catalog:\n" ++ context,
     "\nStudent Question: " ++ query,
     "\nProvide a helpful, accurate answer based on the information above:"]
  generate (String.intercalate "\n" prompt_parts)

/-- One specialist invocation together with its observable effects: the
`(query, k)` requests issued to the Retrieval Service and the number of
Generation Service calls made. -/
structure SpecialistOutput where
  result : AgentResult
  retrieval_requests : List (String × Nat)
  generation_calls : Nat
deriving DecidableEq, Repr

/-- `AdmissionsAdvisorAgent.system_prompt`. -/
def admissions_system_prompt : String :=
  "You are the Admissions Advisor for Bates Technical College, specializing in admissions, enrollment, and requirements.\n\n" ++
  "Your Expertise:\n- Admission requirements for all programs\n- Application processes and procedures\n- Important deadlines and schedules\n- Placement testing and assessment\n- Prerequisites and program qualifications\n- Transfer credit policies\n- International student admissions\n\n" ++
  "Guidelines:\n- ALWAYS answer questions using the information provided in the context/catalog data\n- Provide clear, step-by-step guidance for applications based on the catalog\n- Explain requirements thoroughly with specific details from the data\n- Always mention important deadlines when available\n- Be encouraging, supportive, and CONFIDENT in your answers\n- Reference specific catalog pages for detailed requirements\n- NEVER mention internal tools or technical systems to students\n- ONLY recommend contacting the school if the specific information is truly NOT in the catalog data provided\n- If you must redirect, use:\n  * Website: www.batestech.edu\n  * Phone: (253) 680-7000\n  * Email: admissions@batestech.edu\n\n" ++
  "Key Information to Cover:\n- What documents are needed\n- When to apply\n- How to submit applications\n- What tests may be required\n- Program-specific requirements\n\n" ++
  "Remember: You have access to the college catalog - USE IT to answer questions! Be confident and helpful."

/-- `FinancialAdvisorAgent.system_prompt`. -/
def financial_system_prompt : String :=
  "You are the Financial Aid Advisor for Bates Technical College, specializing in financial matters and aid.\n\n" ++
  "Your Expertise:\n- Tuition and fee structures\n- Financial aid options (federal, state, institutional)\n- Scholarship opportunities\n- Grant programs\n- Payment plans and options\n- Cost estimates for programs\n- Refund and withdrawal policies\n\n" ++
  "Guidelines:\n- ALWAYS answer questions using the information provided in the context/catalog data\n- Provide clear cost information from the catalog\n- Explain financial aid processes step-by-step with specific details\n- Encourage students to explore all aid options mentioned in the data\n- Mention important deadlines (FAFSA, scholarships) when available\n- Be confident in your answers when the information is in the catalog\n- Be sensitive about financial concerns\n- Reference specific catalog pages for policies\n- NEVER mention internal tools or technical systems to students\n- ONLY recommend contacting the school if the specific information is truly NOT in the catalog data provided\n- If you must redirect, use:\n  * Website: www.batestech.edu/financial-aid\n  * Phone: (253) 680-7020\n  * Email: financialaid@batestech.edu\n  * FAFSA School Code: 015984\n\n" ++
  "Key Topics to Cover:\n- How much programs cost\n- What financial aid is available\n- How to apply for aid\n- Payment deadlines and options\n- Scholarship opportunities\n\n" ++
  "Remember: You have access to the college catalog - USE IT to answer questions! Help students understand their options."

/-- `ProgramAdvisorAgent.system_prompt`. -/
def program_system_prompt : String :=
  "You are the Program Advisor for Bates Technical College, specializing in programs, courses, and curriculum planning.\n\n" ++
  "Your Expertise:\n- Detailed knowledge of all academic programs (degrees, certificates, training)\n- Course descriptions, credits, and prerequisites\n- Program requirements and pathways\n- Course sequencing and scheduling\n- Transfer credits and articulation agreements\n\n" ++
  "Guidelines:\n- ALWAYS answer questions using the information provided in the context/catalog data\n- Provide accurate course codes, credits, and requirements from the catalog\n- Explain program pathways clearly with specific details\n- Suggest courses based on student goals\n- Reference specific pages when possible\n- Be confident in your answers when the information is in the catalog\n- NEVER mention internal tools like \x27course_search\x27, \x27program_finder\x27, or \x27RAG retrieval\x27 to students\n- ONLY recommend contacting the school if the specific information is truly NOT in the catalog data provided\n- If you must redirect, use:\n  * Website: www.batestech.edu\n  * Phone: (253) 680-7000\n  * Email: info@batestech.edu\n\n" ++
  "Remember: You have access to the college catalog - USE IT to answer questions! Only redirect when absolutely necessary."

/-- The query-enhancement table of `AdmissionsAdvisorAgent.process_query`. -/
def admissions_enhance (query : String) : String :=
  if containsStr (lowerStr query) "apply" || containsStr (lowerStr query) "application" then
    query ++ " application process requirements deadlines"
  else if containsStr (lowerStr query) "requirement" then
    query ++ " admission prerequisite qualification"
  else if containsStr (lowerStr query) "deadline" then
    query ++ " schedule timeline dates"
  else query

/-- `AdmissionsAdvisorAgent.process_query`: enhance, retrieve with a fixed
`k=5`, generate. -/
def admissions_process_query (os : Oracles)
    (query student_context conversation_history : String) : SpecialistOutput :=
  { result :=
      { agent := "Admissions Advisor",
        response := generate_response os.generate "Admissions Advisor"
          "Admissions, Enrollment, and Requirements Expert" query
          (format_context (retrieve_context os.retrieve (admissions_enhance query) (some 5)).1)
          student_context conversation_history (some admissions_system_prompt),
        sources := (retrieve_context os.retrieve (admissions_enhance query) (some 5)).1.map
          (fun chunk => { page := chunk.page, preview := strTake 150 chunk.content }),
        tools_used := [] },
    retrieval_requests :=
      [(admissions_enhance query,
        (retrieve_context os.retrieve (admissions_enhance query) (some 5)).2)],
    generation_calls := 1 }

/-- The query-enhancement table of `FinancialAdvisorAgent.process_query`. -/
def financial_enhance (query : String) : String :=
  if containsStr (lowerStr query) "cost" || containsStr (lowerStr query) "tuition"
      || containsStr (lowerStr query) "price" then
    query ++ " tuition fees cost payment"
  else if containsStr (lowerStr query) "aid" || containsStr (lowerStr query) "financial" then
    query ++ " financial aid FAFSA grants loans"
  else if containsStr (lowerStr query) "scholarship" then
    query ++ " scholarship award grant funding"
  else query

/-- `FinancialAdvisorAgent.process_query`: enhance, retrieve with a fixed
`k=5`, generate. -/
def financial_process_query (os : Oracles)
    (query student_context conversation_history : String) : SpecialistOutput :=
  { result :=
      { agent := "Financial Aid Advisor",
        response := generate_response os.generate "Financial Aid Advisor"
          "Financial Aid, Tuition, and Scholarships Expert" query
          (format_context (retrieve_context os.retrieve (financial_enhance query) (some 5)).1)
          student_context conversation_history (some financial_system_prompt),
        sources := (retrieve_context os.retrieve (financial_enhance query) (some 5)).1.map
          (fun chunk => { page := chunk.page, preview := strTake 150 chunk.content }),
        tools_used := [] },
    retrieval_requests :=
      [(financial_enhance query,
        (retrieve_context os.retrieve (financial_enhance query) (some 5)).2)],
    generation_calls := 1 }

/-- The program-field keyword list of `ProgramAdvisorAgent.process_query`. -/
def program_fields : List String :=
  ["healthcare", "nursing", "dental", "medical", "carpentry",
   "construction", "welding", "automotive", "culinary", "business"]

/-- The course-search tool section of `ProgramAdvisorAgent.process_query`. -/
def program_course_tool_results (os : Oracles) (query : String) : List String :=
  if ["course", "class", "credit", "prerequisite"].any
      (fun kw => containsStr (lowerStr query) kw) then
    let search_query := match os.course_code_match query with
      | some m => m
      | none => strTake 50 (String.intercalate " "
          ((pyWords query).filter (fun w => w.length > 3)))
    if !search_query.isEmpty then
      ["Course Search Results:\n" ++ os.course_search search_query]
    else []
  else []

/-- The program-finder tool section of `ProgramAdvisorAgent.process_query`. -/
def program_finder_tool_results (os : Oracles) (query : String) : List String :=
  if ["program", "major", "degree", "certificate"].any
      (fun kw => containsStr (lowerStr query) kw) then
    match program_fields.find? (fun f => containsStr (lowerStr query) f) with
    | some field => ["Program Search Results:\n" ++ os.program_finder field]
    | none => []
  else []

/-- `ProgramAdvisorAgent.process_query`: optional tools, adaptive retrieval
(`retrieve_context(query)` with no `k` override), generate. -/
def program_process_query (os : Oracles)
    (query student_context conversation_history : String) : SpecialistOutput :=
  let tool_results := program_course_tool_results os query
    ++ program_finder_tool_results os query
  let combined_context := if !tool_results.isEmpty then
      String.intercalate "\n\n" tool_results ++ "\n\n"
        ++ format_context (retrieve_context os.retrieve query none).1
    else format_context (retrieve_context os.retrieve query none).1
  { result :=
      { agent := "Program Advisor",
        response := generate_response os.generate "Program Advisor"
          "Programs, Courses, and Curriculum Expert" query combined_context
          student_context conversation_history (some program_system_prompt),
        sources := (retrieve_context os.retrieve query none).1.map
          (fun chunk => { page := chunk.page, preview := strTake 150 chunk.content }),
        tools_used := if !tool_results.isEmpty then ["course_search", "program_finder"]
          else [] },
    retrieval_requests := [(query, (retrieve_context os.retrieve query none).2)],
    generation_calls := 1 }

/-! ## Orchestrator embedding (src/src/orchestrator.py) -/

/-- Worker for `dedup_sources`: the `seen_pages` loop of
`_synthesize_responses` (first occurrence of each page wins). -/
def dedup_sources_aux : List Source → List String → List Source
  | [], _ => []
  | s :: rest, seen_pages =>
    if s.page ∈ seen_pages then dedup_sources_aux rest seen_pages
    else s :: dedup_sources_aux rest (s.page :: seen_pages)

/-- The duplicate-removal pass of `MultiAgentOrchestrator._synthesize_responses`. -/
def dedup_sources (l : List Source) : List Source := dedup_sources_aux l []

/-- `MultiAgentOrchestrator._synthesize_responses`: headed concatenation in
input order plus page-deduplicated source merge. -/
def synthesize_responses (responses : List AgentResult) : String × List Source :=
  (String.intercalate "\n\n"
    (responses.map (fun r => "**" ++ r.agent ++ ":**\n" ++ r.response)),
   dedup_sources (responses.flatMap (fun r => r.sources)))

/-- The canned greeting of `_handle_general_query`. -/
def general_greeting_response : String :=
  "Hello! Welcome to the Bates Technical College Student Advisor. I\x27m here to help you with:\n\n* **Programs & Courses** - Learn about our certificates, degrees, and training programs\n* **Admissions** - Application process, requirements, and enrollment steps\n* **Financial Aid** - Tuition costs, FAFSA, scholarships, and payment options\n\nWhat would you like to know about? Feel free to ask me anything!"

/-- The canned help-request reply of `_handle_general_query`. -/
def general_help_response : String :=
  "Of course! I can definitely help. To best assist you, could you please tell me what you need help with? For example, are you interested in:\n\n* Learning about a specific program at Bates Tech?\n* Understanding the admissions or enrollment process?\n* Exploring financial aid, scholarships, or tuition costs?\n\nJust ask your question and I\x27ll do my best to provide helpful information!"

/-- The canned thanks reply of `_handle_general_query`. -/
def general_thanks_response : String :=
  "You\x27re welcome! If you have any more questions about Bates Technical College, feel free to ask. I\x27m happy to help with programs, admissions, or financial aid questions."

/-- The canned identity reply of `_handle_general_query`. -/
def general_identity_response : String :=
  "I\x27m the Bates Technical College Student Advisor, an AI assistant designed to help prospective and current students with questions about:\n\n* **Programs** - Over 30 professional-technical programs\n* **Admissions** - How to apply and enroll\n* **Financial Aid** - Funding your education\n\nHow can I help you today?"

/-- The canned default reply of `_handle_general_query`. -/
def general_default_response : String :=
  "I\x27d be happy to help! I\x27m the Bates Technical College Student Advisor. I can answer questions about:\n\n* Programs and courses offered at Bates Tech\n* Admissions requirements and the application process\n* Financial aid, scholarships, and tuition\n\nWhat would you like to know?"

/-- `MultiAgentOrchestrator._handle_general_query`: canned response selected by
phrase matching on the lowercased query. -/
def handle_general_query (query : String) : String :=
  if ["hello", "hi", "hey", "greetings"].any
      (fun w => containsStr (lowerStr query) w) then general_greeting_response
  else if ["can you help", "help me", "assist", "what can you do"].any
      (fun p => containsStr (lowerStr query) p) then general_help_response
  else if ["thank", "thanks", "appreciate"].any
      (fun p => containsStr (lowerStr query) p) then general_thanks_response
  else if ["who are you", "what are you"].any
      (fun p => containsStr (lowerStr query) p) then general_identity_response
  else general_default_response

/-- The result of `process_query` plus its observable side effects on the
external services: which specialists ran, every `(query, k)` retrieval request,
and the number of specialist Generation Service calls.  The wall-clock
`execution_time` of the source is not modelled. -/
structure ProcessOutput where
  response : String
  sources : List Source
  agents_used : List String
  routing_reasoning : String
  specialist_calls : List String
  retrieval_calls : List (String × Nat)
  generation_calls : Nat
deriving DecidableEq, Repr

/-- The mutable state threaded through `process_query`: the session store and
the routing cache. -/
structure OrchestratorState where
  sessions : SessionManager
  cache : RoutingCache
deriving Repr

/-- Dispatch on `self.agents` (keys `program`, `admissions`, `financial`); other
ids are filtered out before dispatch, so the catch-all is unreachable. -/
def run_specialist (os : Oracles) (query student_context conversation_history : String) :
    String → SpecialistOutput
  | "program" => program_process_query os query student_context conversation_history
  | "admissions" => admissions_process_query os query student_context conversation_history
  | "financial" => financial_process_query os query student_context conversation_history
  | _ => { result := { agent := "", response := "", sources := [], tools_used := [] },
           retrieval_requests := [], generation_calls := 0 }

/-- `MultiAgentOrchestrator.process_query`.  The Generation Service call of the
router is `llm`; `t1`/`t2` are the wall-clock reads of the two `add_message`
calls.  The concurrent multi-specialist dispatch is modelled sequentially in
input order (the source collects in completion order; no claim under proof
depends on the collection order). -/
def process_query (st : OrchestratorState) (os : Oracles)
    (llm : Except GenError String) (session_id query : String) (t1 t2 : Nat) :
    Except PyError (ProcessOutput × OrchestratorState) :=
  match extract_context_from_query st.sessions session_id query with
  | Except.error e => Except.error e
  | Except.ok sessions₁ =>
    match route st.cache query llm with
    | Except.error _ => Except.error PyError.generationFailure
    | Except.ok (routing, cache₁) =>
      if routing.selected_agents.contains "general"
          && routing.selected_agents.length == 1 then
        match SessionManager.add_message sessions₁ session_id "user" query t1 with
        | Except.error e => Except.error e
        | Except.ok sessions₂ =>
          match SessionManager.add_message sessions₂ session_id "assistant"
              (handle_general_query query) t2 with
          | Except.error e => Except.error e
          | Except.ok sessions₃ =>
            Except.ok
              ({ response := handle_general_query query, sources := [],
                 agents_used := ["General Advisor"],
                 routing_reasoning := routing.reasoning,
                 specialist_calls := [], retrieval_calls := [],
                 generation_calls := 0 },
               { sessions := sessions₃, cache := cache₁ })
      else
        let selected₁ := routing.selected_agents.filter (fun a => a != "general")
        let selected₂ := if selected₁.isEmpty then ["program"] else selected₁
        let valid_agents := selected₂.filter
          (fun a => a == "program" || a == "admissions" || a == "financial")
        let outs : List SpecialistOutput := valid_agents.map (run_specialist os query
          (get_context_for_agent st.sessions session_id).1
          (get_context_for_agent st.sessions session_id).2)
        let fr : String × List Source := match outs with
          | [single] => (single.result.response, single.result.sources)
          | _ => synthesize_responses (outs.map (fun o => o.result))
        match SessionManager.add_message sessions₁ session_id "user" query t1 with
        | Except.error e => Except.error e
        | Except.ok sessions₂ =>
          match SessionManager.add_message sessions₂ session_id "assistant" fr.1 t2 with
          | Except.error e => Except.error e
          | Except.ok sessions₃ =>
            Except.ok
              ({ response := fr.1, sources := fr.2,
                 agents_used := outs.map (fun o => o.result.agent),
                 routing_reasoning := routing.reasoning,
                 specialist_calls := valid_agents,
                 retrieval_calls := outs.flatMap (fun o => o.retrieval_requests),
                 generation_calls := (outs.map (fun o => o.generation_calls)).sum },
               { sessions := sessions₃, cache := cache₁ })

/-- A do-nothing oracle set, for evaluating witnesses on concrete inputs. -/
def trivial_oracles : Oracles :=
  { retrieve := fun _ _ => [], generate := fun _ => "",
    course_search := fun _ => "", program_finder := fun _ => "",
    course_code_match := fun _ => none }

/-! ## Router lemmas -/

theorem lookup_tail_of_none {β : Type} {l : List (String × β)} {k : String}
    (h : List.lookup k l = none) : List.lookup k l.tail = none := by
  cases l with
  | nil => simp
  | cons a l =>
    simp only [List.lookup, List.tail_cons] at *
    cases hk : (k == a.1) with
    | true => simp [hk] at h
    | false => simpa [hk] using h

theorem lookup_append_of_none {β : Type} {l₁ l₂ : List (String × β)} {k : String}
    (h : List.lookup k l₁ = none) :
    List.lookup k (l₁ ++ l₂) = List.lookup k l₂ := by
  induction l₁ with
  | nil => simp
  | cons a l ih =>
    simp only [List.lookup, List.cons_append] at *
    cases hk : (k == a.1) with
    | true => simp [hk] at h
    | false => simpa [hk] using ih (by simpa [hk] using h)

theorem lookup_cache_put {cache : RoutingCache} {key : String} {r : IntentResult}
    (h : List.lookup key cache = none) :
    List.lookup key (cache_put cache key r) = some r := by
  have hfull : List.lookup key (cache ++ [(key, r)]) = some r := by
    rw [lookup_append_of_none h]; simp [List.lookup]
  unfold cache_put
  split
  next hlen =>
    cases cache with
    | nil => simp at hlen
    | cons a l =>
      have htail : List.lookup key l = none :=
        lookup_tail_of_none (l := a :: l) h
      simp only [List.cons_append, List.drop_succ_cons, List.drop_zero]
      rw [lookup_append_of_none htail]
      simp [List.lookup]
  next => exact hfull

theorem cache_put_length {cache : RoutingCache} {key : String} {r : IntentResult}
    (h : cache.length ≤ 100) : (cache_put cache key r).length ≤ 100 := by
  unfold cache_put
  split
  next hlen =>
    simp only [List.length_drop, List.length_append, List.length_cons,
      List.length_nil] at hlen ⊢
    omega
  next hlen =>
    simp only [List.length_append, List.length_cons, List.length_nil] at hlen ⊢
    omega

/-- Elements selected by the keyword fallback come from the registry keys. -/
theorem keyword_based_routing_mem (query : String) :
    ∀ a ∈ keyword_based_routing query, a ∈ ["program", "admissions", "financial", "general"] := by
  intro a ha
  unfold keyword_based_routing at ha
  split at ha
  · simp at ha
    simp [ha]
  · have hsub : a ∈ agent_registry.map Prod.fst := by
      rcases List.mem_map.1 ha with ⟨p, hp, rfl⟩
      exact List.mem_map.2 ⟨p, List.mem_of_mem_filter hp, rfl⟩
    simpa [agent_registry] using hsub

theorem keyword_based_routing_ne_nil (query : String) :
    keyword_based_routing query ≠ [] := by
  unfold keyword_based_routing
  cases he : (keyword_matches query).isEmpty with
  | true => simp
  | false =>
    simp only [Bool.false_eq_true, if_false]
    intro hc
    rw [hc] at he
    simp at he

theorem analyze_intent_ok_ne_nil {query text : String} {r : IntentResult}
    (h : analyze_intent query (Except.ok text) = Except.ok r) : r.agents ≠ [] := by
  simp only [analyze_intent] at h
  cases hp : (parse_classification text).1.isEmpty with
  | true =>
    rw [hp] at h
    simp only [if_true] at h
    cases h
    exact keyword_based_routing_ne_nil query
  | false =>
    rw [hp] at h
    simp only [Bool.false_eq_true, if_false, Except.ok.injEq] at h
    subst h
    simpa [List.isEmpty_iff] using hp

theorem analyze_intent_ok_ne_error (q text : String) (e : GenError) :
    analyze_intent q (Except.ok text) ≠ Except.error e := by
  simp only [analyze_intent]
  cases hp : (parse_classification text).1.isEmpty <;> simp [hp]

/-- Equation for `route` on a cache hit. -/
theorem route_hit {cache : RoutingCache} {q : String} {r : IntentResult}
    (h : List.lookup (normalize_query q) cache = some r)
    (llm : Except GenError String) :
    route cache q llm =
      Except.ok ({ query := q, selected_agents := r.agents,
                   reasoning := r.reasoning ++ " (cached)" }, cache) := by
  unfold route
  rw [h]

/-- Equation for `route` on a cache miss when classification errors. -/
theorem route_miss_error {cache : RoutingCache} {q : String}
    {llm : Except GenError String} {e : GenError}
    (hmiss : List.lookup (normalize_query q) cache = none)
    (ha : analyze_intent q llm = Except.error e) :
    route cache q llm = Except.error e := by
  unfold route
  rw [hmiss, ha]

/-- Equation for `route` on a cache miss when classification succeeds. -/
theorem route_miss_ok {cache : RoutingCache} {q : String}
    {llm : Except GenError String} {result : IntentResult}
    (hmiss : List.lookup (normalize_query q) cache = none)
    (ha : analyze_intent q llm = Except.ok result) :
    route cache q llm =
      Except.ok ({ query := q, selected_agents := result.agents,
                   reasoning := result.reasoning },
                 cache_put cache (normalize_query q) result) := by
  unfold route
  rw [hmiss, ha]

/-! ## Claim theorems: router -/

/-- C1 counterexample: with an empty routing cache, a Generation Service error
raised during intent classification propagates out of `route` — no routing
decision is produced, contradicting the claim that the error is absorbed by the
keyword fallback. -/
theorem C1_counterexample :
    route [] "How do I apply and what does it cost?" (Except.error GenError.genFailure)
      = Except.error GenError.genFailure := by rfl

/-- C1 (amended): a raised Generation Service error propagates out of `route` on a
cache miss; the deterministic keyword fallback absorbs only parse failures — when
the Generation Service call succeeds but its output contains no `AGENTS:` line,
`route` still returns a decision whose categories come from keyword matching. -/
theorem C1_fallback_only_for_parse_failures :
    (∀ (cache : RoutingCache) (q : String) (e : GenError),
        List.lookup (normalize_query q) cache = none →
        route cache q (Except.error e) = Except.error e) ∧
    (∀ (cache : RoutingCache) (q text : String),
        List.lookup (normalize_query q) cache = none →
        (parse_classification text).1 = [] →
        route cache q (Except.ok text) =
          Except.ok ({ query := q, selected_agents := keyword_based_routing q,
                       reasoning := "Fallback keyword-based routing" },
                     cache_put cache (normalize_query q)
                       { agents := keyword_based_routing q,
                         reasoning := "Fallback keyword-based routing" })) := by
  constructor
  · intro cache q e h
    exact route_miss_error h rfl
  · intro cache q text h hp
    have ha : analyze_intent q (Except.ok text) =
        Except.ok { agents := keyword_based_routing q,
                    reasoning := "Fallback keyword-based routing" } := by
      simp only [analyze_intent]
      simp [hp]
    exact route_miss_ok h ha

/-- C1 witness: a concrete unparseable reply routed through the keyword fallback. -/
theorem C1_fallback_witness :
    List.lookup (normalize_query "Do you offer welding classes")
        ([] : RoutingCache) = none ∧
    (parse_classification "the model rambled with no structured lines").1 = [] ∧
    route [] "Do you offer welding classes"
        (Except.ok "the model rambled with no structured lines") =
      Except.ok ({ query := "Do you offer welding classes",
                   selected_agents := keyword_based_routing "Do you offer welding classes",
                   reasoning := "Fallback keyword-based routing" },
                 cache_put [] (normalize_query "Do you offer welding classes")
                   { agents := keyword_based_routing "Do you offer welding classes",
                     reasoning := "Fallback keyword-based routing" }) :=
  ⟨by decide, by decide,
   C1_fallback_only_for_parse_failures.2 [] "Do you offer welding classes"
     "the model rambled with no structured lines" (by decide) (by decide)⟩

/-- C3 counterexample: an unvalidated Generation Service reply is passed straight
through — `AGENTS: [banana]` makes `route` return the single unknown category
`banana`, which is not one of {program, admissions, financial, general}. -/
theorem C3_counterexample :
    route [] "what is foo" (Except.ok "AGENTS: [banana]\nREASONING: x") =
      Except.ok ({ query := "what is foo", selected_agents := ["banana"],
                   reasoning := "x" },
                 [("what is foo", { agents := ["banana"], reasoning := "x" })]) ∧
    "banana" ∉ ["program", "admissions", "financial", "general"] := by
  constructor
  · rfl
  · decide

/-- C3 (amended): `route` always returns at least one category name, and whenever
the keyword fallback produces the category set it is a non-empty subset of
{program, admissions, financial, general}; but a parseable model reply is passed
through without validation, so its names and count are unconstrained. -/
theorem C3_category_set :
    (∀ q : String, keyword_based_routing q ≠ [] ∧
        ∀ a ∈ keyword_based_routing q,
          a ∈ ["program", "admissions", "financial", "general"]) ∧
    (∀ (q text : String) (r : IntentResult),
        analyze_intent q (Except.ok text) = Except.ok r → r.agents ≠ []) ∧
    (∀ (cache : RoutingCache) (q text : String) (out : RouteOutput) (c₂ : RoutingCache),
        List.lookup (normalize_query q) cache = none →
        route cache q (Except.ok text) = Except.ok (out, c₂) →
        out.selected_agents ≠ []) := by
  refine ⟨fun q => ⟨keyword_based_routing_ne_nil q, keyword_based_routing_mem q⟩,
          fun q text r h => analyze_intent_ok_ne_nil h, ?_⟩
  intro cache q text out c₂ hmiss hr
  cases ha : analyze_intent q (Except.ok text) with
  | error e => exact absurd ha (analyze_intent_ok_ne_error q text e)
  | ok r =>
    rw [route_miss_ok hmiss ha] at hr
    simp only [Except.ok.injEq, Prod.mk.injEq] at hr
    rw [← hr.1]
    exact analyze_intent_ok_ne_nil ha

/-- C3 witness: the amended statement applied to a concrete successful route. -/
theorem C3_category_set_witness :
    List.lookup (normalize_query "How much is tuition") ([] : RoutingCache) = none ∧
    route [] "How much is tuition" (Except.ok "AGENTS: [financial]\nREASONING: cost") =
      Except.ok ({ query := "How much is tuition", selected_agents := ["financial"],
                   reasoning := "cost" },
                 [("how much is tuition", { agents := ["financial"], reasoning := "cost" })]) ∧
    ({ query := "How much is tuition", selected_agents := ["financial"],
       reasoning := "cost" } : RouteOutput).selected_agents ≠ [] :=
  ⟨by decide, by rfl,
   C3_category_set.2.2 [] "How much is tuition" "AGENTS: [financial]\nREASONING: cost"
     _ _ (by decide) (by rfl)⟩

/-- C5: routing-cache invariants.  After any successful `route` call: a repeat
call whose query has the same normalized form is answered from the cache and is
independent of the Generation Service (no second classification call, no cache
mutation); the cache never exceeds 100 entries; and when a 101st distinct
normalized query is inserted, exactly the single oldest-inserted entry is
evicted. -/
theorem C5_cache_invariants
    (cache : RoutingCache) (q : String) (llm : Except GenError String)
    (out : RouteOutput) (cache' : RoutingCache)
    (h : route cache q llm = Except.ok (out, cache')) :
    (∃ r, List.lookup (normalize_query q) cache' = some r ∧
        ∀ (q₂ : String) (llm' : Except GenError String),
          normalize_query q₂ = normalize_query q →
          route cache' q₂ llm' =
            Except.ok ({ query := q₂, selected_agents := r.agents,
                         reasoning := r.reasoning ++ " (cached)" }, cache')) ∧
    (cache.length ≤ 100 → cache'.length ≤ 100) ∧
    (cache.length = 100 → List.lookup (normalize_query q) cache = none →
        ∃ r, cache' = cache.tail ++ [(normalize_query q, r)]) := by
  cases hl : List.lookup (normalize_query q) cache with
  | some cached =>
    rw [route_hit hl llm] at h
    simp only [Except.ok.injEq, Prod.mk.injEq] at h
    obtain ⟨-, hc⟩ := h
    subst hc
    refine ⟨⟨cached, hl, ?_⟩, fun hle => hle,
            fun _ hnone => absurd hnone (by simp)⟩
    intro q₂ llm' hn
    have hl₂ : List.lookup (normalize_query q₂) cache = some cached := by rw [hn]; exact hl
    exact route_hit hl₂ llm'
  | none =>
    cases ha : analyze_intent q llm with
    | error e =>
      rw [route_miss_error hl ha] at h
      cases h
    | ok result =>
      rw [route_miss_ok hl ha] at h
      simp only [Except.ok.injEq, Prod.mk.injEq] at h
      obtain ⟨-, hc⟩ := h
      subst hc
      refine ⟨⟨result, lookup_cache_put hl, ?_⟩, fun hle => cache_put_length hle, ?_⟩
      · intro q₂ llm' hn
        have hl₂ : List.lookup (normalize_query q₂) (cache_put cache (normalize_query q) result)
            = some result := by rw [hn]; exact lookup_cache_put hl
        exact route_hit hl₂ llm'
      · intro hlen _
        refine ⟨result, ?_⟩
        unfold cache_put
        have hgt : (cache ++ [(normalize_query q, result)]).length > 100 := by
          simp [hlen]
        simp only [hgt, if_pos]
        cases cache with
        | nil => simp at hlen
        | cons a l => simp

/-- C5 witness: the invariants instantiated on a concrete successful route. -/
theorem C5_cache_invariants_witness :
    route [] "Hi" (Except.ok "AGENTS: [general]\nREASONING: greeting") =
      Except.ok ({ query := "Hi", selected_agents := ["general"],
                   reasoning := "greeting" },
                 [("hi", { agents := ["general"], reasoning := "greeting" })]) ∧
    (∃ r, List.lookup (normalize_query "Hi")
            [("hi", ({ agents := ["general"], reasoning := "greeting" } : IntentResult))]
          = some r ∧
        ∀ (q₂ : String) (llm' : Except GenError String),
          normalize_query q₂ = normalize_query "Hi" →
          route [("hi", { agents := ["general"], reasoning := "greeting" })] q₂ llm' =
            Except.ok ({ query := q₂, selected_agents := r.agents,
                         reasoning := r.reasoning ++ " (cached)" },
                       [("hi", { agents := ["general"], reasoning := "greeting" })])) :=
  ⟨by rfl,
   (C5_cache_invariants [] "Hi" (Except.ok "AGENTS: [general]\nREASONING: greeting")
      _ _ (by rfl)).1⟩

/-- C10: a cache hit returns the cached category set with the stored reasoning
plus exactly one `" (cached)"` suffix, leaves the cache (hence the cached entry)
unchanged, and is independent of the Generation Service — so repeated hits on
the same normalized query return identical results with no suffix accumulation. -/
theorem C10_cache_hit (cache : RoutingCache) (q : String) (r : IntentResult)
    (h : List.lookup (normalize_query q) cache = some r) :
    ∀ llm : Except GenError String,
      route cache q llm =
        Except.ok ({ query := q, selected_agents := r.agents,
                     reasoning := r.reasoning ++ " (cached)" }, cache) := by
  intro llm
  unfold route
  rw [h]

/-- C10 witness: a concrete repeated hit; the two calls agree and never touch the
stored entry, with differently-spaced queries sharing one normalized form. -/
theorem C10_cache_hit_witness :
    List.lookup (normalize_query "  How do I  APPLY ")
        [("how do i apply", ({ agents := ["admissions"], reasoning := "application" } : IntentResult))]
      = some { agents := ["admissions"], reasoning := "application" } ∧
    route [("how do i apply", { agents := ["admissions"], reasoning := "application" })]
        "  How do I  APPLY " (Except.error GenError.genFailure) =
      Except.ok ({ query := "  How do I  APPLY ", selected_agents := ["admissions"],
                   reasoning := "application (cached)" },
                 [("how do i apply", { agents := ["admissions"], reasoning := "application" })]) :=
  ⟨by decide,
   C10_cache_hit
     [("how do i apply", { agents := ["admissions"], reasoning := "application" })]
     "  How do I  APPLY " { agents := ["admissions"], reasoning := "application" }
     (by decide) (Except.error GenError.genFailure)⟩

/-! ## Session lemmas -/

theorem takeLast_nil (k : Nat) : takeLast k ([] : List α) = [] := by
  simp [takeLast]

theorem takeLast_length (k : Nat) (l : List α) :
    (takeLast k l).length = min k l.length := by
  simp [takeLast]

theorem takeLast_of_length_le {k : Nat} {l : List α} (h : l.length ≤ k) :
    takeLast k l = l := by
  unfold takeLast
  rw [List.take_of_length_le (by simpa using h), List.reverse_reverse]

theorem takeLast_append_singleton (k : Nat) (l : List α) (x : α) :
    takeLast (k + 1) (l ++ [x]) = takeLast k l ++ [x] := by
  simp [takeLast, List.take_succ_cons]

theorem takeLast_takeLast (j k : Nat) (l : List α) :
    takeLast j (takeLast k l) = takeLast (min j k) l := by
  simp [takeLast, List.take_take]

theorem pySliceLast_pos {l : List α} {k : Nat} (h : k ≠ 0) :
    pySliceLast l k = takeLast k l := by
  simp [pySliceLast, h]

theorem add_message_max_history (h : ConversationHistory)
    (role content : String) (now : Nat) :
    (h.add_message role content now).max_history = h.max_history := by
  unfold ConversationHistory.add_message
  split <;> rfl

theorem add_message_takeLast {h : ConversationHistory} {acc : List Message}
    (hk : 1 ≤ h.max_history)
    (hm : h.messages = takeLast (h.max_history * 2) acc)
    (role content : String) (now : Nat) :
    (h.add_message role content now).messages
      = takeLast (h.max_history * 2) (acc ++ [Message.mk role content now]) := by
  obtain ⟨j, hj⟩ : ∃ j, h.max_history * 2 = j + 1 := ⟨h.max_history * 2 - 1, by omega⟩
  unfold ConversationHistory.add_message
  split
  next hlen =>
    show pySliceLast (h.messages ++ [Message.mk role content now]) (h.max_history * 2)
        = takeLast (h.max_history * 2) (acc ++ [Message.mk role content now])
    rw [pySliceLast_pos (by omega), hm, hj, takeLast_append_singleton,
        takeLast_takeLast, takeLast_append_singleton]
    simp
  next hlen =>
    show h.messages ++ [Message.mk role content now]
        = takeLast (h.max_history * 2) (acc ++ [Message.mk role content now])
    rw [hm, hj, takeLast_append_singleton]
    have hacc : acc.length ≤ j := by
      rw [hm] at hlen
      simp only [List.length_append, List.length_cons, List.length_nil,
        takeLast_length, hj] at hlen
      omega
    rw [takeLast_of_length_le hacc, takeLast_of_length_le (by omega)]

theorem foldl_add_message_takeLast (calls : List (String × String × Nat))
    (h : ConversationHistory) (acc : List Message)
    (hk : 1 ≤ h.max_history)
    (hm : h.messages = takeLast (h.max_history * 2) acc) :
    (calls.foldl (fun hh c => hh.add_message c.1 c.2.1 c.2.2) h).messages
      = takeLast (h.max_history * 2)
          (acc ++ calls.map (fun c => Message.mk c.1 c.2.1 c.2.2)) ∧
    (calls.foldl (fun hh c => hh.add_message c.1 c.2.1 c.2.2) h).max_history
      = h.max_history := by
  induction calls generalizing h acc with
  | nil => simpa using hm
  | cons c rest ih =>
    have hmax := add_message_max_history h c.1 c.2.1 c.2.2
    have hstep := add_message_takeLast hk hm c.1 c.2.1 c.2.2
    have := ih (h.add_message c.1 c.2.1 c.2.2) (acc ++ [Message.mk c.1 c.2.1 c.2.2])
      (by rw [hmax]; exact hk) (by rw [hmax]; exact hstep)
    rw [List.foldl_cons]
    constructor
    · rw [this.1, hmax]
      simp
    · rw [this.2, hmax]

theorem add_message_no_evict {h : ConversationHistory} (role content : String) (now : Nat)
    (hlen : h.messages.length + 1 ≤ h.max_history * 2) :
    (h.add_message role content now).messages
      = h.messages ++ [Message.mk role content now] := by
  unfold ConversationHistory.add_message
  split
  next hgt =>
    exfalso
    simp only [List.length_append, List.length_cons, List.length_nil] at hgt
    omega
  next => rfl

theorem replay_messages (msgs : List Message) (now : Nat) (h : ConversationHistory)
    (hlen : h.messages.length + msgs.length ≤ h.max_history * 2) :
    (msgs.foldl (fun hh msg => hh.add_message msg.role msg.content now) h).messages
      = h.messages ++ msgs.map (fun msg => Message.mk msg.role msg.content now) := by
  induction msgs generalizing h with
  | nil => simp
  | cons msg rest ih =>
    have hmax := add_message_max_history h msg.role msg.content now
    have hmsg := add_message_no_evict (h := h) msg.role msg.content now
      (by simp only [List.length_cons] at hlen; omega)
    rw [List.foldl_cons, ih _ (by
      rw [hmsg, hmax]
      simp only [List.length_append, List.length_cons, List.length_nil] at hlen ⊢
      omega)]
    rw [hmsg]
    simp

theorem find_alistUpdate {β : Type} {l : List (String × β)} {k : String} (v : β)
    (h : (l.find? (fun p => p.1 == k)).isSome) :
    (alistUpdate l k v).find? (fun p => p.1 == k) = some (k, v) := by
  induction l with
  | nil => simp [List.find?] at h
  | cons a t ih =>
    unfold alistUpdate
    cases ha : (a.1 == k) with
    | true =>
      have hak : a.1 = k := by simpa using ha
      simp [List.find?, ha, hak]
    | false =>
      simp only [List.map_cons, ha, Bool.false_eq_true, if_false]
      rw [List.find?]
      simp only [ha, Bool.false_eq_true, if_false]
      refine ih ?_
      rw [List.find?] at h
      simpa [ha] using h

theorem find_append_none {β : Type} {l₁ l₂ : List (String × β)} {p : String × β → Bool}
    (h : l₁.find? p = none) : (l₁ ++ l₂).find? p = l₂.find? p := by
  induction l₁ with
  | nil => simp
  | cons a t ih =>
    rw [List.find?] at h
    rw [List.cons_append, List.find?]
    cases ha : p a with
    | true => rw [ha] at h; cases h
    | false =>
      rw [ha] at h
      simpa using ih h

theorem alistLookup_insert {β : Type} (l : List (String × β)) (k : String) (v : β) :
    alistLookup (alistInsert l k v) k = some v := by
  unfold alistInsert alistLookup
  cases hf : (l.find? (fun p => p.1 == k)).isSome with
  | true =>
    simp only [hf, if_true]
    rw [find_alistUpdate v hf]
    rfl
  | false =>
    simp only [hf, Bool.false_eq_true, if_false]
    rw [find_append_none (by
      cases hn : l.find? (fun p => p.1 == k) with
      | none => rfl
      | some x => rw [hn] at hf; simp at hf)]
    simp [List.find?]

/-! ## Claim theorems: session manager -/

/-- C7 counterexample: with `max_history = 0` the Python slice `l[-0:]` keeps the
whole list, so one `add_message` already leaves the history above its stated
`2 × max_history` bound. -/
theorem C7_counterexample :
    ¬ ((({ messages := [], max_history := 0 } : ConversationHistory).add_message
        "user" "hi" 0).messages.length ≤ 2 * 0) := by decide

/-- C7 (amended, adding the hypothesis `max_history ≥ 1` that the
counterexample forces): after any sequence of `add_message` calls the stored
list is exactly the most recent `2 × max_history` appended messages — eviction
drops from the front, oldest first — and its length never exceeds
`2 × max_history`. -/
theorem C7_history_bound (max_history : Nat) (hk : 1 ≤ max_history)
    (calls : List (String × String × Nat)) :
    (calls.foldl (fun hh c => hh.add_message c.1 c.2.1 c.2.2)
        { messages := [], max_history := max_history } : ConversationHistory).messages
      = takeLast (max_history * 2) (calls.map (fun c => Message.mk c.1 c.2.1 c.2.2)) ∧
    (calls.foldl (fun hh c => hh.add_message c.1 c.2.1 c.2.2)
        { messages := [], max_history := max_history } : ConversationHistory).messages.length
      ≤ max_history * 2 := by
  have h := foldl_add_message_takeLast calls
    { messages := [], max_history := max_history } [] hk (by rw [takeLast_nil])
  have h1 : (calls.foldl (fun hh c => hh.add_message c.1 c.2.1 c.2.2)
      { messages := [], max_history := max_history } : ConversationHistory).messages
      = takeLast (max_history * 2) (calls.map (fun c => Message.mk c.1 c.2.1 c.2.2)) := by
    simpa using h.1
  refine ⟨h1, ?_⟩
  rw [h1, takeLast_length]
  omega

/-- C7 witness: three messages against capacity `2 × 1` keep exactly the last
two, oldest evicted first. -/
theorem C7_history_bound_witness :
    (1 ≤ 1) ∧
    (([("user", "a", 0), ("assistant", "b", 1), ("user", "c", 2)].foldl
        (fun hh c => hh.add_message c.1 c.2.1 c.2.2)
        { messages := [], max_history := 1 } : ConversationHistory).messages
      = takeLast (1 * 2)
          ([("user", "a", 0), ("assistant", "b", 1), ("user", "c", 2)].map
            (fun c => Message.mk c.1 c.2.1 c.2.2))) ∧
    takeLast (1 * 2)
        ([("user", "a", 0), ("assistant", "b", 1), ("user", "c", 2)].map
          (fun c => Message.mk c.1 c.2.1 c.2.2))
      = [Message.mk "assistant" "b" 1, Message.mk "user" "c" 2] :=
  ⟨by decide,
   (C7_history_bound 1 (by decide)
     [("user", "a", 0), ("assistant", "b", 1), ("user", "c", 2)]).1,
   by decide⟩

/-- C2 counterexample: saving a session holding one message stamped at time 0
and loading it back at time 1 reproduces role and content but re-stamps the
message with the load-time clock (`load_session` replays `add_message`, which
calls `datetime.now()`), so the round-trip is not lossless for the timestamp
field. -/
theorem C2_counterexample :
    save_session
        [("s", { session_id := "s", created_at := 0, student_context := {},
                 conversation_history := { messages := [Message.mk "user" "hi" 0],
                                           max_history := 10 },
                 metadata := [] })] [] "s"
      = Except.ok [("s", { session_id := "s", created_at := 0, student_context := {},
                           conversation_history := [Message.mk "user" "hi" 0],
                           metadata := [] })] ∧
    (alistLookup
        (load_session
          [("s", { session_id := "s", created_at := 0, student_context := {},
                   conversation_history := { messages := [Message.mk "user" "hi" 0],
                                             max_history := 10 },
                   metadata := [] })]
          [("s", { session_id := "s", created_at := 0, student_context := {},
                   conversation_history := [Message.mk "user" "hi" 0],
                   metadata := [] })] "s" 1).1 "s").map
        (fun s => s.conversation_history.messages)
      = some [Message.mk "user" "hi" 1] ∧
    [Message.mk "user" "hi" 1] ≠ [Message.mk "user" "hi" 0] := by
  refine ⟨by rfl, by decide, by decide⟩

/-- C2 (amended, restricted as the counterexample forces): the save→load
round-trip reproduces the `StudentContext`, creation time and metadata exactly
and the `ConversationHistory` messages in order with identical role and content
— but every loaded timestamp equals the load-time clock, not the saved one. -/
theorem C2_roundtrip (m : SessionManager) (disk : Disk) (sid : String)
    (s : Session) (now : Nat)
    (hs : get_session m sid = some s)
    (hlen : s.conversation_history.messages.length ≤ 20) :
    ∃ disk', save_session m disk sid = Except.ok disk' ∧
      ∃ s', get_session (load_session m disk' sid now).1 sid = some s' ∧
        (load_session m disk' sid now).2 = true ∧
        s'.student_context = s.student_context ∧
        s'.created_at = s.created_at ∧
        s'.metadata = s.metadata ∧
        s'.conversation_history.messages.map (fun msg => (msg.role, msg.content))
          = s.conversation_history.messages.map (fun msg => (msg.role, msg.content)) ∧
        ∀ msg ∈ s'.conversation_history.messages, msg.timestamp = now := by
  have hreplay : (s.conversation_history.get_all_messages.foldl
      (fun hh msg => hh.add_message msg.role msg.content now)
      { messages := [], max_history := 10 } : ConversationHistory).messages
      = s.conversation_history.messages.map
          (fun msg => Message.mk msg.role msg.content now) := by
    rw [replay_messages s.conversation_history.get_all_messages now
      { messages := [], max_history := 10 }
      (by simpa [ConversationHistory.get_all_messages] using hlen)]
    simp [ConversationHistory.get_all_messages]
  refine ⟨alistInsert disk sid
      { session_id := sid, created_at := s.created_at,
        student_context := s.student_context,
        conversation_history := s.conversation_history.get_all_messages,
        metadata := s.metadata },
    by unfold save_session; rw [hs], ?_⟩
  have hload : load_session m (alistInsert disk sid
      { session_id := sid, created_at := s.created_at,
        student_context := s.student_context,
        conversation_history := s.conversation_history.get_all_messages,
        metadata := s.metadata }) sid now
      = (alistInsert m sid
          { session_id := sid, created_at := s.created_at,
            student_context := s.student_context,
            conversation_history := s.conversation_history.get_all_messages.foldl
              (fun hh msg => hh.add_message msg.role msg.content now)
              { messages := [], max_history := 10 },
            metadata := s.metadata }, true) := by
    unfold load_session
    rw [alistLookup_insert]
  refine ⟨{ session_id := sid, created_at := s.created_at,
            student_context := s.student_context,
            conversation_history := s.conversation_history.get_all_messages.foldl
              (fun hh msg => hh.add_message msg.role msg.content now)
              { messages := [], max_history := 10 },
            metadata := s.metadata },
          by rw [hload]; exact alistLookup_insert m sid _,
          by rw [hload], rfl, rfl, rfl, ?_, ?_⟩
  · rw [hreplay]
    simp
  · intro msg hmem
    rw [hreplay] at hmem
    simp only [List.mem_map] at hmem
    obtain ⟨x, -, rfl⟩ := hmem
    rfl

/-- C2 witness: the amended round-trip on a concrete one-message session. -/
theorem C2_roundtrip_witness :
    get_session
        [("s", { session_id := "s", created_at := 3, student_context := {},
                 conversation_history := { messages := [Message.mk "user" "hi" 0],
                                           max_history := 10 },
                 metadata := [("k", "v")] })] "s"
      = some { session_id := "s", created_at := 3, student_context := {},
               conversation_history := { messages := [Message.mk "user" "hi" 0],
                                         max_history := 10 },
               metadata := [("k", "v")] } ∧
    (∃ disk', save_session
        [("s", { session_id := "s", created_at := 3, student_context := {},
                 conversation_history := { messages := [Message.mk "user" "hi" 0],
                                           max_history := 10 },
                 metadata := [("k", "v")] })] [] "s" = Except.ok disk' ∧
      ∃ s', get_session (load_session
          [("s", { session_id := "s", created_at := 3, student_context := {},
                   conversation_history := { messages := [Message.mk "user" "hi" 0],
                                             max_history := 10 },
                   metadata := [("k", "v")] })] disk' "s" 7).1 "s" = some s' ∧
        (load_session
          [("s", { session_id := "s", created_at := 3, student_context := {},
                   conversation_history := { messages := [Message.mk "user" "hi" 0],
                                             max_history := 10 },
                   metadata := [("k", "v")] })] disk' "s" 7).2 = true ∧
        s'.student_context = ({} : StudentContext) ∧
        s'.created_at = 3 ∧
        s'.metadata = [("k", "v")] ∧
        s'.conversation_history.messages.map (fun msg => (msg.role, msg.content))
          = [("user", "hi")] ∧
        ∀ msg ∈ s'.conversation_history.messages, msg.timestamp = 7) :=
  ⟨by decide,
   C2_roundtrip
     [("s", { session_id := "s", created_at := 3, student_context := {},
              conversation_history := { messages := [Message.mk "user" "hi" 0],
                                        max_history := 10 },
              metadata := [("k", "v")] })] [] "s"
     { session_id := "s", created_at := 3, student_context := {},
       conversation_history := { messages := [Message.mk "user" "hi" 0],
                                 max_history := 10 },
       metadata := [("k", "v")] } 7 (by decide) (by decide)⟩

/-- C9 counterexample: `save_session` on an unknown id returns normally with the
disk untouched (`if not session: return`) — it does not fail with a NotFound
condition as the claim requires of every mutating operation. -/
theorem C9_counterexample :
    save_session [] [] "ghost" = Except.ok [] := by rfl

/-- C9 (amended, weakened only for `save`): on an unknown session id the
mutating operations `add_message` and `update_student_context` raise
`ValueError` (NotFound); `save_session` is a silent no-op returning normally;
and the reads `get_session`, `get_context_for_agent` and `load_session` return
absent, default or `False` results without failing. -/
theorem C9_unknown_id (m : SessionManager) (disk : Disk) (sid : String)
    (h : get_session m sid = none) :
    (∀ (role content : String) (now : Nat),
        SessionManager.add_message m sid role content now
          = Except.error (PyError.valueError ("Session " ++ sid ++ " not found"))) ∧
    (∀ (major year : Option String) (interests goals : Option (List String)),
        update_student_context m sid major year interests goals
          = Except.error (PyError.valueError ("Session " ++ sid ++ " not found"))) ∧
    save_session m disk sid = Except.ok disk ∧
    get_session m sid = none ∧
    get_context_for_agent m sid = ("No prior context", "No prior conversation") ∧
    (alistLookup disk sid = none →
        ∀ now : Nat, load_session m disk sid now = (m, false)) := by
  refine ⟨?_, ?_, ?_, h, ?_, ?_⟩
  · intro role content now
    unfold SessionManager.add_message
    rw [h]
  · intro major year interests goals
    unfold update_student_context
    rw [h]
  · unfold save_session
    rw [h]
  · unfold get_context_for_agent
    rw [h]
  · intro hd now
    unfold load_session
    rw [hd]

/-- C9 witness: the amended behavior on a concrete empty store. -/
theorem C9_unknown_id_witness :
    get_session [] "ghost" = none ∧
    SessionManager.add_message [] "ghost" "user" "hi" 0
      = Except.error (PyError.valueError "Session ghost not found") ∧
    get_context_for_agent [] "ghost" = ("No prior context", "No prior conversation") :=
  ⟨by decide,
   ((C9_unknown_id [] [] "ghost" (by decide)).1 "user" "hi" 0).trans rfl,
   ((C9_unknown_id [] [] "ghost" (by decide)).2.2.2.2).1⟩

/-! ## Synthesis lemmas -/

theorem dedup_sources_aux_nodup (l : List Source) (seen : List String) :
    ((dedup_sources_aux l seen).map Source.page).Nodup ∧
    ∀ s ∈ dedup_sources_aux l seen, s.page ∉ seen := by
  induction l generalizing seen with
  | nil => simp [dedup_sources_aux]
  | cons a t ih =>
    unfold dedup_sources_aux
    split
    next hmem => exact ⟨(ih seen).1, fun s hs => (ih seen).2 s hs⟩
    next hmem =>
      obtain ⟨hnd, hni⟩ := ih (a.page :: seen)
      constructor
      · simp only [List.map_cons, List.nodup_cons]
        refine ⟨?_, hnd⟩
        intro hc
        rcases List.mem_map.1 hc with ⟨s, hs, hp⟩
        exact hni s hs (by rw [hp]; exact List.mem_cons_self _ _)
      · intro s hs
        rcases List.mem_cons.1 hs with rfl | hs'
        · exact hmem
        · exact fun hc => hni s hs' (List.mem_cons_of_mem _ hc)

theorem dedup_sources_aux_sublist (l : List Source) (seen : List String) :
    (dedup_sources_aux l seen).Sublist l := by
  induction l generalizing seen with
  | nil => simp [dedup_sources_aux]
  | cons a t ih =>
    unfold dedup_sources_aux
    split
    · exact (ih seen).cons a
    · exact (ih (a.page :: seen)).cons₂ a

theorem dedup_sources_aux_covers (l : List Source) (seen : List String) :
    ∀ s ∈ l, s.page ∉ seen → ∃ t ∈ dedup_sources_aux l seen, t.page = s.page := by
  induction l generalizing seen with
  | nil => simp
  | cons a rest ih =>
    intro s hs hns
    unfold dedup_sources_aux
    rcases List.mem_cons.1 hs with rfl | hs'
    · split
      next hmem => exact absurd hmem hns
      next hmem => exact ⟨s, List.mem_cons_self _ _, rfl⟩
    · split
      next hmem => exact ih seen s hs' hns
      next hmem =>
        by_cases hp : s.page = a.page
        · exact ⟨a, List.mem_cons_self _ _, hp.symm⟩
        · obtain ⟨u, hu, hup⟩ := ih (a.page :: seen) s hs' (by
            intro hc
            rcases List.mem_cons.1 hc with h1 | h2
            · exact hp h1
            · exact hns h2)
          exact ⟨u, List.mem_cons_of_mem _ hu, hup⟩

theorem dedup_sources_aux_first (l : List Source) (seen : List String) :
    ∀ t ∈ dedup_sources_aux l seen,
      l.find? (fun s => s.page == t.page) = some t := by
  induction l generalizing seen with
  | nil => simp [dedup_sources_aux]
  | cons a rest ih =>
    intro t ht
    unfold dedup_sources_aux at ht
    split at ht
    next hmem =>
      have hfind := ih seen t ht
      have htp : t.page ∉ seen := (dedup_sources_aux_nodup rest seen).2 t ht
      have hne : (a.page == t.page) = false := by
        simp only [beq_eq_false_iff_ne, ne_eq]
        intro hc
        exact htp (hc ▸ hmem)
      rw [List.find?]
      simp only [hne]
      exact hfind
    next hmem =>
      rcases List.mem_cons.1 ht with rfl | ht'
      · rw [List.find?]
        simp
      · have hfind := ih (a.page :: seen) t ht'
        have htp : t.page ∉ a.page :: seen :=
          (dedup_sources_aux_nodup rest (a.page :: seen)).2 t ht'
        have hne : (a.page == t.page) = false := by
          simp only [beq_eq_false_iff_ne, ne_eq]
          intro hc
          exact htp (hc ▸ List.mem_cons_self _ _)
        rw [List.find?]
        simp only [hne]
        exact hfind

/-! ## Claim theorems: synthesis and retrieval breadth -/

/-- C6: synthesis of two or more specialist results concatenates each response
under a bold heading naming its specialist, in input order, and the merged
source list is a subsequence of the concatenated inputs whose pages are
pairwise distinct, covering every input page, each represented by the first
source in input order carrying that page. -/
theorem C6_synthesis (responses : List AgentResult) (_hlen : 2 ≤ responses.length) :
    (synthesize_responses responses).1
      = String.intercalate "\n\n"
          (responses.map (fun r => "**" ++ r.agent ++ ":**\n" ++ r.response)) ∧
    ((synthesize_responses responses).2.map Source.page).Nodup ∧
    (synthesize_responses responses).2.Sublist
      (responses.flatMap (fun r => r.sources)) ∧
    (∀ s ∈ responses.flatMap (fun r => r.sources),
        ∃ t ∈ (synthesize_responses responses).2, t.page = s.page) ∧
    (∀ t ∈ (synthesize_responses responses).2,
        (responses.flatMap (fun r => r.sources)).find? (fun s => s.page == t.page)
          = some t) := by
  refine ⟨rfl,
    (dedup_sources_aux_nodup (responses.flatMap (fun r => r.sources)) []).1,
    dedup_sources_aux_sublist _ [],
    fun s hs => dedup_sources_aux_covers _ [] s hs (by simp),
    fun t ht => dedup_sources_aux_first _ [] t ht⟩

/-- C6 witness: two specialists sharing page 5; the first occurrence survives,
the later duplicate is dropped, and the text is the headed concatenation. -/
theorem C6_synthesis_witness :
    2 ≤ ([{ agent := "Admissions Advisor", response := "ra",
            sources := [{ page := "3", preview := "x" }, { page := "5", preview := "y" }],
            tools_used := [] },
          { agent := "Financial Aid Advisor", response := "rb",
            sources := [{ page := "5", preview := "z" }, { page := "7", preview := "w" }],
            tools_used := [] }] : List AgentResult).length ∧
    (synthesize_responses
        [{ agent := "Admissions Advisor", response := "ra",
           sources := [{ page := "3", preview := "x" }, { page := "5", preview := "y" }],
           tools_used := [] },
         { agent := "Financial Aid Advisor", response := "rb",
           sources := [{ page := "5", preview := "z" }, { page := "7", preview := "w" }],
           tools_used := [] }]).1
      = String.intercalate "\n\n"
          (([{ agent := "Admissions Advisor", response := "ra",
               sources := [{ page := "3", preview := "x" }, { page := "5", preview := "y" }],
               tools_used := [] },
             { agent := "Financial Aid Advisor", response := "rb",
               sources := [{ page := "5", preview := "z" }, { page := "7", preview := "w" }],
               tools_used := [] }] : List AgentResult).map
            (fun r => "**" ++ r.agent ++ ":**\n" ++ r.response)) ∧
    (synthesize_responses
        [{ agent := "Admissions Advisor", response := "ra",
           sources := [{ page := "3", preview := "x" }, { page := "5", preview := "y" }],
           tools_used := [] },
         { agent := "Financial Aid Advisor", response := "rb",
           sources := [{ page := "5", preview := "z" }, { page := "7", preview := "w" }],
           tools_used := [] }]).2
      = [{ page := "3", preview := "x" }, { page := "5", preview := "y" },
         { page := "7", preview := "w" }] ∧
    (synthesize_responses
        [{ agent := "Admissions Advisor", response := "ra",
           sources := [{ page := "3", preview := "x" }, { page := "5", preview := "y" }],
           tools_used := [] },
         { agent := "Financial Aid Advisor", response := "rb",
           sources := [{ page := "5", preview := "z" }, { page := "7", preview := "w" }],
           tools_used := [] }]).1
      = "**Admissions Advisor:**\nra\n\n**Financial Aid Advisor:**\nrb" :=
  ⟨by decide,
   (C6_synthesis _ (by decide)).1,
   by decide, by decide⟩

/-- C8 counterexample: for the query `"hello"` no admissions enhancement
applies (the enhanced query equals the original), yet the Admissions specialist
still requests a fixed 5 chunks, while the adaptive rule on the original query
gives 2 — so the override is not tied to an enhancement applying. -/
theorem C8_counterexample :
    (admissions_process_query trivial_oracles "hello" "" "").retrieval_requests
      = [("hello", 5)] ∧
    admissions_enhance "hello" = "hello" ∧
    adaptive_k "hello" = 2 ∧
    (5 : Nat) ≠ 2 :=
  ⟨by decide, by decide, by decide, by decide⟩

/-- C8 (amended): the base adaptive rule is as claimed — under 8 words and not
multi-question requests 2; comparison/enumeration keywords, multiple question
marks, or over 20 words requests 5; otherwise 3 — but the Admissions and
Financial specialists always override to a fixed 5 (enhancement or not), and
the Program specialist never overrides, always using the adaptive count. -/
theorem C8_retrieval_counts :
    (∀ q : String,
        (decide ((pyWords q).length < 8) && !has_multiple_questions q) = true →
        adaptive_k q = 2) ∧
    (∀ q : String,
        (decide ((pyWords q).length < 8) && !has_multiple_questions q) = false →
        (has_complex_keywords q || has_multiple_questions q
          || decide ((pyWords q).length > 20)) = true →
        adaptive_k q = 5) ∧
    (∀ q : String,
        (decide ((pyWords q).length < 8) && !has_multiple_questions q) = false →
        (has_complex_keywords q || has_multiple_questions q
          || decide ((pyWords q).length > 20)) = false →
        adaptive_k q = 3) ∧
    (∀ (os : Oracles) (q sc cc : String),
        (admissions_process_query os q sc cc).retrieval_requests
          = [(admissions_enhance q, 5)]) ∧
    (∀ (os : Oracles) (q sc cc : String),
        (financial_process_query os q sc cc).retrieval_requests
          = [(financial_enhance q, 5)]) ∧
    (∀ (os : Oracles) (q sc cc : String),
        (program_process_query os q sc cc).retrieval_requests
          = [(q, adaptive_k q)]) := by
  refine ⟨?_, ?_, ?_, fun os q sc cc => rfl, fun os q sc cc => rfl, fun os q sc cc => rfl⟩
  · intro q h
    simp [adaptive_k, h]
  · intro q h1 h2
    simp [adaptive_k, h1, h2]
  · intro q h1 h2
    simp [adaptive_k, h1, h2]

/-- C8 witness: a short single-question query gets the adaptive count 2, yet
the Admissions specialist requests 5 and the Program specialist requests the
adaptive 2. -/
theorem C8_retrieval_counts_witness :
    (decide ((pyWords "hi").length < 8) && !has_multiple_questions "hi") = true ∧
    adaptive_k "hi" = 2 ∧
    (admissions_process_query trivial_oracles "hi" "" "").retrieval_requests
      = [("hi", 5)] ∧
    (program_process_query trivial_oracles "hi" "" "").retrieval_requests
      = [("hi", 2)] :=
  ⟨by decide, C8_retrieval_counts.1 "hi" (by decide), by decide, by decide⟩

/-! ## Orchestrator lemmas -/

theorem alistLookup_isSome {β : Type} {l : List (String × β)} {k : String} {v : β}
    (h : alistLookup l k = some v) : (l.find? (fun p => p.1 == k)).isSome := by
  unfold alistLookup at h
  cases hf : l.find? (fun p => p.1 == k) with
  | none => rw [hf] at h; cases h
  | some x => simp [hf]

theorem alistLookup_update_self {β : Type} {l : List (String × β)} {k : String} {s : β}
    (h : alistLookup l k = some s) (v : β) :
    alistLookup (alistUpdate l k v) k = some v := by
  unfold alistLookup
  rw [find_alistUpdate v (alistLookup_isSome h)]
  rfl

/-- `update_student_context` on a known id succeeds and leaves the conversation
history of the session untouched. -/
theorem update_student_context_spec {m : SessionManager} {sid : String} {s : Session}
    (hs : get_session m sid = some s)
    (major year : Option String) (interests goals : Option (List String)) :
    ∃ m' s', update_student_context m sid major year interests goals = Except.ok m' ∧
      get_session m' sid = some s' ∧
      s'.conversation_history = s.conversation_history := by
  unfold update_student_context
  rw [hs]
  exact ⟨_, _, rfl, alistLookup_update_self hs _, rfl⟩

/-- `extract_context_from_query` on a known id succeeds and leaves the
conversation history of the session untouched. -/
theorem extract_spec {m : SessionManager} {sid : String} {s : Session}
    (hs : get_session m sid = some s) (query : String) :
    ∃ m' s', extract_context_from_query m sid query = Except.ok m' ∧
      get_session m' sid = some s' ∧
      s'.conversation_history = s.conversation_history := by
  unfold extract_context_from_query
  split
  · exact update_student_context_spec hs _ _ none none
  · exact ⟨m, s, rfl, hs, rfl⟩

/-- `SessionManager.add_message` on a known id succeeds, and the session's new
history is exactly the old history with the message appended (under the
bounded-history policy). -/
theorem manager_add_message_spec {m : SessionManager} {sid : String} {s : Session}
    (hs : get_session m sid = some s) (role content : String) (now : Nat) :
    ∃ m' s', SessionManager.add_message m sid role content now = Except.ok m' ∧
      get_session m' sid = some s' ∧
      s'.conversation_history = s.conversation_history.add_message role content now := by
  unfold SessionManager.add_message
  rw [hs]
  refine ⟨_, _, rfl, alistLookup_update_self hs _, ?_⟩
  cases hrole : (role == "user") <;> simp [hrole]

/-! ## Claim theorems: orchestrator general short-circuit -/

/-- C4: when routing selects exactly the single category `general`,
`process_query` short-circuits — the response is the canned phrase-matched
reply with an empty source list, no specialist is invoked and no
Retrieval/Generation request is made by specialists, and the session history
gains exactly the two messages user-then-assistant. -/
theorem C4_general_short_circuit
    (st : OrchestratorState) (os : Oracles) (llm : Except GenError String)
    (sid query : String) (t1 t2 : Nat) (s : Session)
    (routing : RouteOutput) (cache₁ : RoutingCache)
    (hs : get_session st.sessions sid = some s)
    (hr : route st.cache query llm = Except.ok (routing, cache₁))
    (hg : routing.selected_agents = ["general"])
    (hlen : s.conversation_history.messages.length + 2
      ≤ s.conversation_history.max_history * 2) :
    ∃ st' : OrchestratorState,
      process_query st os llm sid query t1 t2
        = Except.ok
            ({ response := handle_general_query query, sources := [],
               agents_used := ["General Advisor"],
               routing_reasoning := routing.reasoning,
               specialist_calls := [], retrieval_calls := [],
               generation_calls := 0 }, st') ∧
      ∃ s', get_session st'.sessions sid = some s' ∧
        s'.conversation_history.messages
          = s.conversation_history.messages
            ++ [Message.mk "user" query t1,
                Message.mk "assistant" (handle_general_query query) t2] := by
  obtain ⟨m₁, s₁, hex, hs₁, hh₁⟩ := extract_spec hs query
  obtain ⟨m₂, s₂, hadd1, hs₂, hh₂⟩ := manager_add_message_spec hs₁ "user" query t1
  obtain ⟨m₃, s₃, hadd2, hs₃, hh₃⟩ :=
    manager_add_message_spec hs₂ "assistant" (handle_general_query query) t2
  unfold process_query
  split
  next heq => rw [hex] at heq; cases heq
  next sessions₁ heq =>
    rw [hex] at heq
    injection heq with h₁
    subst h₁
    split
    next heq₂ => rw [hr] at heq₂; cases heq₂
    next routing' cache₁' heq₂ =>
      rw [hr] at heq₂
      injection heq₂ with h₂
      injection h₂ with h₂a h₂b
      subst h₂a
      subst h₂b
      rw [hg]
      rw [if_pos (show (List.contains ["general"] "general"
        && (List.length ["general"] == 1)) = true from rfl)]
      refine ⟨{ sessions := m₃, cache := cache₁ }, ?_, s₃, hs₃, ?_⟩
      · split
        next heq₃ => rw [hadd1] at heq₃; cases heq₃
        next sessions₂ heq₃ =>
          rw [hadd1] at heq₃
          injection heq₃ with h₃
          subst h₃
          split
          next heq₄ => rw [hadd2] at heq₄; cases heq₄
          next sessions₃ heq₄ =>
            rw [hadd2] at heq₄
            injection heq₄ with h₄
            subst h₄
            rfl
      · have h1 : (s.conversation_history.add_message "user" query t1).messages
            = s.conversation_history.messages ++ [Message.mk "user" query t1] :=
          add_message_no_evict "user" query t1 (by omega)
        have hmax1 := add_message_max_history s.conversation_history "user" query t1
        have h2 : ((s.conversation_history.add_message "user" query t1).add_message
              "assistant" (handle_general_query query) t2).messages
            = (s.conversation_history.add_message "user" query t1).messages
              ++ [Message.mk "assistant" (handle_general_query query) t2] :=
          add_message_no_evict "assistant" (handle_general_query query) t2
            (by rw [h1, hmax1]; simp only [List.length_append, List.length_cons,
              List.length_nil]; omega)
        rw [hh₃, hh₂, hh₁, h2, h1, List.append_assoc]
        rfl

/-- C4 witness: the short-circuit on a concrete session and the reply
`AGENTS: [general]`; the query `Hello` gets the canned greeting, no specialist
or retrieval effects, and the history gains the two messages. -/
theorem C4_general_short_circuit_witness :
    get_session
        [("s", { session_id := "s", created_at := 0, student_context := {},
                 conversation_history := { messages := [], max_history := 10 },
                 metadata := [] })] "s"
      = some { session_id := "s", created_at := 0, student_context := {},
               conversation_history := { messages := [], max_history := 10 },
               metadata := [] } ∧
    route [] "Hello" (Except.ok "AGENTS: [general]\nREASONING: greet")
      = Except.ok ({ query := "Hello", selected_agents := ["general"],
                     reasoning := "greet" },
                   [("hello", { agents := ["general"], reasoning := "greet" })]) ∧
    (∃ st' : OrchestratorState,
      process_query
          { sessions :=
              [("s", { session_id := "s", created_at := 0, student_context := {},
                       conversation_history := { messages := [], max_history := 10 },
                       metadata := [] })],
            cache := [] }
          trivial_oracles (Except.ok "AGENTS: [general]\nREASONING: greet")
          "s" "Hello" 1 2
        = Except.ok
            ({ response := handle_general_query "Hello", sources := [],
               agents_used := ["General Advisor"],
               routing_reasoning := "greet",
               specialist_calls := [], retrieval_calls := [],
               generation_calls := 0 }, st') ∧
      ∃ s', get_session st'.sessions "s" = some s' ∧
        s'.conversation_history.messages
          = [Message.mk "user" "Hello" 1,
             Message.mk "assistant" (handle_general_query "Hello") 2]) :=
  ⟨by decide, by rfl,
   by
     have h := C4_general_short_circuit
       { sessions :=
           [("s", { session_id := "s", created_at := 0, student_context := {},
                    conversation_history := { messages := [], max_history := 10 },
                    metadata := [] })],
         cache := [] }
       trivial_oracles (Except.ok "AGENTS: [general]\nREASONING: greet")
       "s" "Hello" 1 2
       { session_id := "s", created_at := 0, student_context := {},
         conversation_history := { messages := [], max_history := 10 },
         metadata := [] }
       { query := "Hello", selected_agents := ["general"], reasoning := "greet" }
       [("hello", { agents := ["general"], reasoning := "greet" })]
       (by decide) (by rfl) (by decide) (by decide)
     obtain ⟨st', hpq, s', hgs, hmsgs⟩ := h
     exact ⟨st', hpq, s', hgs, by rw [hmsgs]; rfl⟩⟩

end BatesAdvisor
